import Mathlib

/-!
Verification of the market-regime risk engine.

The development shallowly embeds the two source modules:

* `regime_classifier`: prices are an ordered `List ℚ`; every intermediate
  pandas Series is embedded per point as a function `ℕ → Option ℚ`, where
  `none` stands for a missing value (NaN).  A pandas rolling aggregation
  with its default `min_periods` yields a value only when every slot of the
  trailing window is present; this is mirrored by `rollingWindowAt`.
* `decision_gate`: a direct translation of the string dispatch.

Real arithmetic is embedded exactly in `ℚ`.  The only operation that
leaves `ℚ` is the square root inside the rolling standard deviation; it is
embedded by `Rat.sqrt`, which agrees with the real square root on the
perfect-square variances (in particular `0`) at which the theorems below
ever inspect a volatility value.  Division by a zero price would produce an
IEEE infinity in the source; the inputs used below avoid zero prices.
-/

/-- The four regime labels produced by the classifier. -/
inductive Label where
  | TREND
  | RANGE
  | VOLATILE
  | UNCERTAIN
deriving DecidableEq

/-- `RegimeConfig` from `regime_classifier.py`, with the source defaults.
Window sizes are embedded as naturals; thresholds and multipliers as `ℚ`. -/
structure RegimeConfig where
  lookback_vol : ℕ := 20
  lookback_trend : ℕ := 40
  typical_vol_window : ℕ := 100
  vol_mult_high : ℚ := 3 / 2
  slope_threshold : ℚ := 0
deriving DecidableEq

/-- The default configuration `RegimeConfig()`. -/
def defaultConfig : RegimeConfig := {}

/-- Sample variance with `ddof = 1` (the pandas `std` default), over the
values actually present in a window. -/
def sampleVar (xs : List ℚ) : ℚ :=
  (xs.map (fun x => (x - xs.sum / (xs.length : ℚ)) ^ 2)).sum / ((xs.length : ℚ) - 1)

/-- Sample standard deviation: `sqrt` of `sampleVar`; undefined on fewer
than two observations (pandas returns NaN there because `ddof = 1`). -/
def sampleStd (xs : List ℚ) : Option ℚ :=
  if xs.length ≤ 1 then none else some (Rat.sqrt (sampleVar xs))

/-- Median of a list: sort, take the middle element, averaging the two
middle elements when the length is even; undefined on the empty list. -/
def medianList (xs : List ℚ) : Option ℚ :=
  if xs.length = 0 then none
  else if xs.length % 2 = 1 then (xs.insertionSort (· ≤ ·))[xs.length / 2]?
  else
    match (xs.insertionSort (· ≤ ·))[xs.length / 2 - 1]?,
        (xs.insertionSort (· ≤ ·))[xs.length / 2]? with
    | some a, some b => some ((a + b) / 2)
    | _, _ => none

/-- The trailing window of length `w` ending at position `t` of a
per-point series, defined only when every slot is in range and present —
pandas' rolling with default `min_periods = window`. -/
def rollingWindowAt (f : ℕ → Option ℚ) (w t : ℕ) : Option (List ℚ) :=
  if w = 0 ∨ t + 1 < w then none
  else if ((List.range w).map fun i => f (t - i)).all Option.isSome then
    some ((List.range w).map fun i => f (t - i)).reduceOption
  else none

/-- `simple_returns`: `(p_t / p_{t-1}) - 1`, missing at `t = 0` and out of
range. -/
def simple_returns (close : List ℚ) (t : ℕ) : Option ℚ :=
  if t = 0 then none
  else
    match close[t]?, close[t - 1]? with
    | some p, some q => some (p / q - 1)
    | _, _ => none

/-- `rolling_volatility`: rolling standard deviation over `window`
points. -/
def rolling_volatility (returns : ℕ → Option ℚ) (window t : ℕ) : Option ℚ :=
  (rollingWindowAt returns window t).bind sampleStd

/-- Rolling median over `window` points. -/
def rollingMedianAt (f : ℕ → Option ℚ) (window t : ℕ) : Option ℚ :=
  (rollingWindowAt f window t).bind medianList

/-- `simple_slope`: `(close[t] - close[t - lookback]) / lookback`, missing
for the first `lookback` points.  With `lookback = 0` the source divides
zero by zero, producing NaN everywhere. -/
def simple_slope (close : List ℚ) (lookback t : ℕ) : Option ℚ :=
  if lookback = 0 then none
  else if t < lookback then none
  else
    match close[t]?, close[t - lookback]? with
    | some p, some q => some ((p - q) / (lookback : ℚ))
    | _, _ => none

/-- The per-point volatility `vol` of `classify_regimes`. -/
def volAt (close : List ℚ) (cfg : RegimeConfig) (t : ℕ) : Option ℚ :=
  rolling_volatility (simple_returns close) cfg.lookback_vol t

/-- The per-point baseline `typical_vol`: rolling median of `vol`. -/
def typicalVolAt (close : List ℚ) (cfg : RegimeConfig) (t : ℕ) : Option ℚ :=
  rollingMedianAt (volAt close cfg) cfg.typical_vol_window t

/-- The per-point slope threshold: the configured constant when it is
positive, otherwise the rolling 200-point median of `abs(slope)`. -/
def slopeThresholdAt (close : List ℚ) (cfg : RegimeConfig) (t : ℕ) : Option ℚ :=
  if cfg.slope_threshold ≤ 0 then
    rollingMedianAt (fun s => (simple_slope close cfg.lookback_trend s).map (fun x => |x|)) 200 t
  else some cfg.slope_threshold

/-- `min_bars_needed`. -/
def minBars (cfg : RegimeConfig) : ℕ :=
  max (cfg.lookback_trend + 1) (cfg.typical_vol_window + cfg.lookback_vol + 1)

/-- Strict `>` on possibly missing values; a comparison against NaN is
false in pandas. -/
def optGT : Option ℚ → Option ℚ → Bool
  | some a, some b => decide (b < a)
  | _, _ => false

/-- Non-strict `≤` on possibly missing values; false if either side is
missing. -/
def optLE : Option ℚ → Option ℚ → Bool
  | some a, some b => decide (a ≤ b)
  | _, _ => false

/-- `volatile_mask`: `vol > typical_vol * vol_mult_high`. -/
def volatileMaskAt (close : List ℚ) (cfg : RegimeConfig) (t : ℕ) : Bool :=
  optGT (volAt close cfg t) ((typicalVolAt close cfg t).map (fun ty => ty * cfg.vol_mult_high))

/-- `trend_mask`: not volatile and `abs(slope) > slope_threshold`. -/
def trendMaskAt (close : List ℚ) (cfg : RegimeConfig) (t : ℕ) : Bool :=
  !volatileMaskAt close cfg t &&
    optGT ((simple_slope close cfg.lookback_trend t).map (fun x => |x|))
      (slopeThresholdAt close cfg t)

/-- `range_mask`: not volatile and `abs(slope) <= slope_threshold`. -/
def rangeMaskAt (close : List ℚ) (cfg : RegimeConfig) (t : ℕ) : Bool :=
  !volatileMaskAt close cfg t &&
    optLE ((simple_slope close cfg.lookback_trend t).map (fun x => |x|))
      (slopeThresholdAt close cfg t)

/-- The label of one point.  The source initialises every label to
UNCERTAIN, returns early when the series is shorter than `min_bars_needed`,
and then assigns the VOLATILE, TREND and RANGE masks in that order, a later
assignment overwriting an earlier one; hence the RANGE mask is consulted
first here. -/
def labelAt (close : List ℚ) (cfg : RegimeConfig) (t : ℕ) : Label :=
  if close.length < minBars cfg then Label.UNCERTAIN
  else if rangeMaskAt close cfg t then Label.RANGE
  else if trendMaskAt close cfg t then Label.TREND
  else if volatileMaskAt close cfg t then Label.VOLATILE
  else Label.UNCERTAIN

/-- `classify_regimes`: one label per input point, in input order. -/
def classify_regimes (close : List ℚ) (cfg : RegimeConfig) : List Label :=
  (List.range close.length).map (labelAt close cfg)

/-- All four intermediate per-point series are defined at `t`: the
post-warm-up condition. -/
def definedAll (close : List ℚ) (cfg : RegimeConfig) (t : ℕ) : Prop :=
  (volAt close cfg t).isSome = true ∧
    (typicalVolAt close cfg t).isSome = true ∧
    (simple_slope close cfg.lookback_trend t).isSome = true ∧
    (slopeThresholdAt close cfg t).isSome = true

instance (close : List ℚ) (cfg : RegimeConfig) (t : ℕ) :
    Decidable (definedAll close cfg t) := by
  unfold definedAll; infer_instance

/-- The decision record returned by `decision_gate`. -/
structure Decision where
  allow_trade : Bool
  position_size : ℚ
  note : String
deriving DecidableEq

/-- `decision_gate` from `decision_gate.py`: a total string dispatch whose
final branch catches every input other than the three named regimes. -/
def decision_gate (regime : String) : Decision :=
  if regime = ("TREND") then
    ⟨true, 1, "Trend regime: full risk allowed"⟩
  else if regime = ("RANGE") then
    ⟨true, 1 / 2, "Range regime: reduced size"⟩
  else if regime = ("VOLATILE") then
    ⟨false, 0, "Volatile regime: trading disabled"⟩
  else
    ⟨false, 0, "Uncertain regime: no trade"⟩

/-! ### Basic lemmas about the embedding -/

theorem ratSqrt_zero : Rat.sqrt 0 = 0 := by decide

theorem optGT_none_left (b : Option ℚ) : optGT none b = false := rfl

theorem optGT_none_right (a : Option ℚ) : optGT a none = false := by
  cases a <;> rfl

theorem optLE_none_left (b : Option ℚ) : optLE none b = false := rfl

theorem optLE_none_right (a : Option ℚ) : optLE a none = false := by
  cases a <;> rfl

theorem optGT_and_optLE (a b : Option ℚ) : (optGT a b && optLE a b) = false := by
  cases a <;> cases b <;> simp [optGT, optLE]

theorem classify_length (close : List ℚ) (cfg : RegimeConfig) :
    (classify_regimes close cfg).length = close.length := by
  simp [classify_regimes]

theorem classify_getElem (close : List ℚ) (cfg : RegimeConfig) (t : ℕ)
    (h : t < close.length) :
    (classify_regimes close cfg)[t]? = some (labelAt close cfg t) := by
  simp [classify_regimes, List.getElem?_map, List.getElem?_range, h]

theorem labelAt_short (close : List ℚ) (cfg : RegimeConfig) (t : ℕ)
    (h : close.length < minBars cfg) :
    labelAt close cfg t = Label.UNCERTAIN := by
  simp [labelAt, h]

theorem classify_short (close : List ℚ) (cfg : RegimeConfig)
    (h : close.length < minBars cfg) :
    classify_regimes close cfg = List.replicate close.length Label.UNCERTAIN := by
  unfold classify_regimes
  rw [List.eq_replicate_iff]
  refine ⟨by simp, ?_⟩
  intro b hb
  rcases List.mem_map.mp hb with ⟨t, _, rfl⟩
  exact labelAt_short close cfg t h

/-! ### Zero-valued windows (used for constant and geometric price series) -/

theorem rollingWindowAt_mem {f : ℕ → Option ℚ} {w t : ℕ} {l : List ℚ}
    (h : rollingWindowAt f w t = some l) : ∀ x ∈ l, ∃ s, f s = some x := by
  intro x hx
  unfold rollingWindowAt at h
  split at h
  · simp at h
  · split at h
    · rw [Option.some_inj] at h
      subst h
      rcases List.mem_map.mp (List.reduceOption_mem_iff.mp hx) with ⟨i, _, hfi⟩
      exact ⟨t - i, hfi⟩
    · simp at h

theorem sampleStd_of_zeros {xs : List ℚ} (h : ∀ x ∈ xs, x = 0) :
    sampleStd xs = none ∨ sampleStd xs = some 0 := by
  unfold sampleStd
  split
  · exact Or.inl rfl
  · right
    have hsum : xs.sum = 0 := List.sum_eq_zero h
    have hsq : (xs.map (fun x => (x - xs.sum / (xs.length : ℚ)) ^ 2)).sum = 0 := by
      apply List.sum_eq_zero
      intro y hy
      rcases List.mem_map.mp hy with ⟨x, hx, rfl⟩
      rw [h x hx, hsum]
      simp
    unfold sampleVar
    rw [hsq, zero_div, ratSqrt_zero]

theorem insertionSort_replicate (n : ℕ) :
    (List.replicate n (0 : ℚ)).insertionSort (· ≤ ·) = List.replicate n 0 := by
  induction n with
  | zero => rfl
  | succ k ih =>
      cases k with
      | zero => rfl
      | succ m =>
          rw [List.replicate_succ, List.insertionSort, ih, List.replicate_succ,
            List.orderedInsert, if_pos le_rfl, ← List.replicate_succ, ← List.replicate_succ]

theorem medianList_of_zeros {xs : List ℚ} (h : ∀ x ∈ xs, x = 0) :
    medianList xs = none ∨ medianList xs = some 0 := by
  have hxs : xs = List.replicate xs.length 0 := List.eq_replicate_iff.mpr ⟨rfl, h⟩
  rcases hn : xs.length with _ | k
  · left
    unfold medianList
    rw [hn]
    simp
  · right
    rw [hxs, hn]
    unfold medianList
    rw [insertionSort_replicate]
    simp only [List.length_replicate]
    have h2 : (k + 1) / 2 < k + 1 := Nat.div_lt_self (Nat.succ_pos k) one_lt_two
    have h1 : (k + 1) / 2 - 1 < k + 1 := lt_of_le_of_lt (Nat.sub_le _ _) h2
    by_cases hodd : (k + 1) % 2 = 1
    · simp [hodd, List.getElem?_replicate, h2]
    · simp [hodd, List.getElem?_replicate, h2, h1]

theorem rolling_volatility_of_zeros {f : ℕ → Option ℚ}
    (hf : ∀ s x, f s = some x → x = 0) (w t : ℕ) :
    rolling_volatility f w t = none ∨ rolling_volatility f w t = some 0 := by
  unfold rolling_volatility
  cases hw : rollingWindowAt f w t with
  | none => exact Or.inl rfl
  | some l =>
      have hl : ∀ x ∈ l, x = 0 := fun x hx => by
        rcases rollingWindowAt_mem hw x hx with ⟨s, hs⟩
        exact hf s x hs
      exact sampleStd_of_zeros hl

theorem rollingMedianAt_of_zeros {f : ℕ → Option ℚ}
    (hf : ∀ s x, f s = some x → x = 0) (w t : ℕ) :
    rollingMedianAt f w t = none ∨ rollingMedianAt f w t = some 0 := by
  unfold rollingMedianAt
  cases hw : rollingWindowAt f w t with
  | none => exact Or.inl rfl
  | some l =>
      have hl : ∀ x ∈ l, x = 0 := fun x hx => by
        rcases rollingWindowAt_mem hw x hx with ⟨s, hs⟩
        exact hf s x hs
      exact medianList_of_zeros hl

theorem simple_returns_replicate {n : ℕ} {c : ℚ} (hc : c ≠ 0) (t : ℕ) (x : ℚ)
    (hx : simple_returns (List.replicate n c) t = some x) : x = 0 := by
  unfold simple_returns at hx
  rw [List.getElem?_replicate, List.getElem?_replicate] at hx
  split at hx
  · simp at hx
  · by_cases ht : t < n <;> by_cases ht1 : t - 1 < n <;> simp [ht, ht1] at hx
    rw [div_self hc] at hx
    simpa using hx.symm

theorem simple_slope_replicate {n L : ℕ} {c : ℚ} (t : ℕ) (x : ℚ)
    (hx : simple_slope (List.replicate n c) L t = some x) : x = 0 := by
  unfold simple_slope at hx
  rw [List.getElem?_replicate, List.getElem?_replicate] at hx
  split at hx
  · simp at hx
  · split at hx
    · simp at hx
    · by_cases ht : t < n <;> by_cases htL : t - L < n <;> simp [ht, htL] at hx
      simpa using hx.symm

theorem volAt_replicate {n : ℕ} {c : ℚ} (hc : c ≠ 0) (cfg : RegimeConfig) (t : ℕ) :
    volAt (List.replicate n c) cfg t = none ∨ volAt (List.replicate n c) cfg t = some 0 :=
  rolling_volatility_of_zeros (fun s x hx => simple_returns_replicate hc s x hx) _ _

theorem typicalVolAt_replicate {n : ℕ} {c : ℚ} (hc : c ≠ 0) (cfg : RegimeConfig) (t : ℕ) :
    typicalVolAt (List.replicate n c) cfg t = none ∨
      typicalVolAt (List.replicate n c) cfg t = some 0 := by
  apply rollingMedianAt_of_zeros
  intro s x hx
  rcases volAt_replicate hc cfg s with h | h
  · rw [h] at hx
    cases hx
  · rw [h] at hx
    exact (Option.some_inj.mp hx).symm

/-! ### Label characterisation -/

theorem labelAt_of_masks (close : List ℚ) (cfg : RegimeConfig) (t : ℕ)
    (hlen : ¬ close.length < minBars cfg) :
    labelAt close cfg t =
      if rangeMaskAt close cfg t then Label.RANGE
      else if trendMaskAt close cfg t then Label.TREND
      else if volatileMaskAt close cfg t then Label.VOLATILE
      else Label.UNCERTAIN := by
  unfold labelAt
  rw [if_neg hlen]

theorem labelAt_volatile_mask (close : List ℚ) (cfg : RegimeConfig) (t : ℕ)
    (h : labelAt close cfg t = Label.VOLATILE) :
    volatileMaskAt close cfg t = true := by
  by_cases h0 : close.length < minBars cfg
  · rw [labelAt_short close cfg t h0] at h
    exact absurd h (by decide)
  · rw [labelAt_of_masks close cfg t h0] at h
    by_cases h1 : rangeMaskAt close cfg t = true
    · rw [if_pos h1] at h
      exact absurd h (by decide)
    · rw [if_neg h1] at h
      by_cases h2 : trendMaskAt close cfg t = true
      · rw [if_pos h2] at h
        exact absurd h (by decide)
      · rw [if_neg h2] at h
        by_cases h3 : volatileMaskAt close cfg t = true
        · exact h3
        · rw [if_neg h3] at h
          exact absurd h (by decide)

/-! ### The claims -/

/-- Claim C1: for every configuration and every price series shorter than
`min_bars = max(lookback_trend + 1, typical_vol_window + lookback_vol + 1)`,
`classify_regimes` returns a label series in which every label is
UNCERTAIN. -/
theorem warmup_short_series_all_uncertain (close : List ℚ) (cfg : RegimeConfig)
    (h : close.length < minBars cfg) :
    classify_regimes close cfg = List.replicate close.length Label.UNCERTAIN :=
  classify_short close cfg h

/-- Claim C2: for every configuration and price series the output has the
same length as the input, the label at every in-range position `t` is the
per-point label of position `t` (index alignment), and every output label
is one of the four regime labels. -/
theorem classify_length_and_alignment (close : List ℚ) (cfg : RegimeConfig) :
    (classify_regimes close cfg).length = close.length ∧
    (∀ t : ℕ, t < close.length →
      (classify_regimes close cfg)[t]? = some (labelAt close cfg t)) ∧
    ∀ l ∈ classify_regimes close cfg,
      l = Label.TREND ∨ l = Label.RANGE ∨ l = Label.VOLATILE ∨ l = Label.UNCERTAIN := by
  refine ⟨classify_length close cfg, fun t ht => classify_getElem close cfg t ht, ?_⟩
  intro l _
  cases l <;> simp

/-- Claim C3: at every point the three non-UNCERTAIN masks are pairwise
exclusive -- VOLATILE is decided first and TREND/RANGE only over its
complement, with strict `>` against non-strict `≤` on the same threshold --
and the point's label is exactly one of the four labels. -/
theorem masks_mutually_exclusive (close : List ℚ) (cfg : RegimeConfig) (t : ℕ) :
    (volatileMaskAt close cfg t && trendMaskAt close cfg t) = false ∧
    (volatileMaskAt close cfg t && rangeMaskAt close cfg t) = false ∧
    (trendMaskAt close cfg t && rangeMaskAt close cfg t) = false ∧
    (labelAt close cfg t = Label.TREND ∨ labelAt close cfg t = Label.RANGE ∨
      labelAt close cfg t = Label.VOLATILE ∨ labelAt close cfg t = Label.UNCERTAIN) := by
  refine ⟨?_, ?_, ?_, ?_⟩
  · cases h : volatileMaskAt close cfg t <;> simp [trendMaskAt, h]
  · cases h : volatileMaskAt close cfg t <;> simp [rangeMaskAt, h]
  · cases h : volatileMaskAt close cfg t <;>
      simp [trendMaskAt, rangeMaskAt, h, optGT_and_optLE]
  · cases h : labelAt close cfg t <;> simp [h]

/-- Claim C5: a point that is not flagged volatile, whose slope and
per-point threshold are defined, and where `abs(slope)` equals the
threshold exactly, is labeled RANGE (the TREND comparison is strict, the
RANGE comparison is not), provided the series passed the length gate. -/
theorem slope_tie_classifies_range (close : List ℚ) (cfg : RegimeConfig) (t : ℕ) (s c : ℚ)
    (hlen : minBars cfg ≤ close.length)
    (hvol : volatileMaskAt close cfg t = false)
    (hs : simple_slope close cfg.lookback_trend t = some s)
    (hc : slopeThresholdAt close cfg t = some c)
    (htie : |s| = c) :
    labelAt close cfg t = Label.RANGE := by
  have hrange : rangeMaskAt close cfg t = true := by
    simp [rangeMaskAt, hvol, hs, hc, optLE, htie]
  rw [labelAt_of_masks close cfg t (Nat.not_lt.mpr hlen), if_pos hrange]

/-- Claim C6: a point whose volatility equals the baseline times
`vol_mult_high` exactly is not flagged volatile (the comparison is a strict
`>`), and its label is never VOLATILE. -/
theorem volatility_boundary_not_volatile (close : List ℚ) (cfg : RegimeConfig) (t : ℕ)
    (v ty : ℚ)
    (hv : volAt close cfg t = some v)
    (hty : typicalVolAt close cfg t = some ty)
    (heq : v = ty * cfg.vol_mult_high) :
    volatileMaskAt close cfg t = false ∧ labelAt close cfg t ≠ Label.VOLATILE := by
  have hmask : volatileMaskAt close cfg t = false := by
    simp [volatileMaskAt, hv, hty, optGT, heq]
  refine ⟨hmask, fun hlab => ?_⟩
  rw [labelAt_volatile_mask close cfg t hlab] at hmask
  cases hmask

/-- Claim C4 (amended): an undefined volatility or baseline only prevents
the VOLATILE flag; a post-gate point that is not flagged volatile and whose
slope or per-point threshold is undefined stays UNCERTAIN.  (A point whose
volatility or baseline is undefined can still be labeled TREND or RANGE
when slope and threshold are defined.) -/
theorem undefined_slope_or_threshold_stays_uncertain (close : List ℚ)
    (cfg : RegimeConfig) (t : ℕ) :
    ((volAt close cfg t = none ∨ typicalVolAt close cfg t = none) →
      volatileMaskAt close cfg t = false) ∧
    (minBars cfg ≤ close.length → volatileMaskAt close cfg t = false →
      (simple_slope close cfg.lookback_trend t = none ∨
        slopeThresholdAt close cfg t = none) →
      labelAt close cfg t = Label.UNCERTAIN) := by
  constructor
  · rintro (h | h)
    · simp [volatileMaskAt, h, optGT_none_left]
    · simp [volatileMaskAt, h, optGT_none_right]
  · intro hlen hvol hst
    have hG : optGT ((simple_slope close cfg.lookback_trend t).map (fun x => |x|))
        (slopeThresholdAt close cfg t) = false := by
      rcases hst with h | h
      · simp [h, optGT_none_left]
      · simp [h, optGT_none_right]
    have hL : optLE ((simple_slope close cfg.lookback_trend t).map (fun x => |x|))
        (slopeThresholdAt close cfg t) = false := by
      rcases hst with h | h
      · simp [h, optLE_none_left]
      · simp [h, optLE_none_right]
    have hr : rangeMaskAt close cfg t = false := by
      simp [rangeMaskAt, hL]
    have htr : trendMaskAt close cfg t = false := by
      simp [trendMaskAt, hG]
    rw [labelAt_of_masks close cfg t (Nat.not_lt.mpr hlen), if_neg (by simp [hr]),
      if_neg (by simp [htr]), if_neg (by simp [hvol])]

/-- Claim C7 (amended): `classify_regimes` performs no input validation and
never signals a failure: for every configuration (a negative
`vol_mult_high` included) and every price series (non-positive prices
included) it returns one label per input point, and a series shorter than
`min_bars` yields the all-UNCERTAIN label series rather than an error. -/
theorem classify_total_on_all_inputs (close : List ℚ) (cfg : RegimeConfig) :
    (classify_regimes close cfg).length = close.length ∧
    (close.length < minBars cfg →
      classify_regimes close cfg = List.replicate close.length Label.UNCERTAIN) :=
  ⟨classify_length close cfg, fun h => classify_short close cfg h⟩

/-- Claim C8: `decision_gate` is total and fail-safe: TREND allows trading
at size 1, RANGE allows trading at size 1/2, and every other input string
(VOLATILE, UNCERTAIN, or anything malformed) yields the disabled decision
with size 0, never an enabled state. -/
theorem decision_gate_fail_safe :
    decision_gate ("TREND") = ⟨true, 1, "Trend regime: full risk allowed"⟩ ∧
    decision_gate ("RANGE") = ⟨true, 1 / 2, "Range regime: reduced size"⟩ ∧
    decision_gate ("VOLATILE") = ⟨false, 0, "Volatile regime: trading disabled"⟩ ∧
    ∀ s : String, s ≠ ("TREND") → s ≠ ("RANGE") →
      (decision_gate s).allow_trade = false ∧ (decision_gate s).position_size = 0 := by
  refine ⟨rfl, rfl, rfl, fun s h1 h2 => ?_⟩
  unfold decision_gate
  rw [if_neg h1, if_neg h2]
  split <;> exact ⟨rfl, rfl⟩

/-- Claim C9: for every configuration, a constant positive price series of
length at least `min_bars` is labeled RANGE at every post-warm-up point,
i.e. at every point where all four intermediate series are defined. -/
theorem constant_price_post_warmup_range (cfg : RegimeConfig) (c : ℚ) (n t : ℕ)
    (hc : 0 < c) (hn : minBars cfg ≤ n)
    (hd : definedAll (List.replicate n c) cfg t) :
    labelAt (List.replicate n c) cfg t = Label.RANGE := by
  obtain ⟨hv, hty, hs, hth⟩ := hd
  have hc0 : c ≠ 0 := ne_of_gt hc
  have hv0 : volAt (List.replicate n c) cfg t = some 0 := by
    rcases volAt_replicate hc0 cfg t with h | h
    · rw [h] at hv
      simp at hv
    · exact h
  have hty0 : typicalVolAt (List.replicate n c) cfg t = some 0 := by
    rcases typicalVolAt_replicate hc0 cfg t with h | h
    · rw [h] at hty
      simp at hty
    · exact h
  have hs0 : simple_slope (List.replicate n c) cfg.lookback_trend t = some 0 := by
    rcases hsx : simple_slope (List.replicate n c) cfg.lookback_trend t with _ | x
    · rw [hsx] at hs
      simp at hs
    · rw [simple_slope_replicate t x hsx]
  obtain ⟨τ, hτ, hτ0⟩ :
      ∃ τ, slopeThresholdAt (List.replicate n c) cfg t = some τ ∧ 0 ≤ τ := by
    by_cases hcase : cfg.slope_threshold ≤ 0
    · have hzero : ∀ s x,
          (simple_slope (List.replicate n c) cfg.lookback_trend s).map (fun y => |y|) =
            some x → x = 0 := by
        intro s x hx
        rcases hsx : simple_slope (List.replicate n c) cfg.lookback_trend s with _ | y
        · rw [hsx] at hx
          simp at hx
        · rw [hsx, Option.map_some'] at hx
          have hyx := Option.some_inj.mp hx
          rw [← hyx, simple_slope_replicate s y hsx, abs_zero]
      have hauto : slopeThresholdAt (List.replicate n c) cfg t =
          rollingMedianAt
            (fun s => (simple_slope (List.replicate n c) cfg.lookback_trend s).map
              (fun x => |x|)) 200 t := by
        unfold slopeThresholdAt
        rw [if_pos hcase]
      rcases rollingMedianAt_of_zeros hzero 200 t with h | h
      · rw [hauto, h] at hth
        simp at hth
      · exact ⟨0, by rw [hauto]; exact h, le_refl 0⟩
    · exact ⟨cfg.slope_threshold, by unfold slopeThresholdAt; rw [if_neg hcase],
        le_of_lt (not_le.mp hcase)⟩
  have hvolmask : volatileMaskAt (List.replicate n c) cfg t = false := by
    simp [volatileMaskAt, hv0, hty0, optGT]
  have hrange : rangeMaskAt (List.replicate n c) cfg t = true := by
    simp [rangeMaskAt, hvolmask, hs0, hτ, optLE, hτ0]
  have hlen : ¬ (List.replicate n c).length < minBars cfg := by
    rw [List.length_replicate]
    exact Nat.not_lt.mpr hn
  rw [labelAt_of_masks _ cfg t hlen, if_pos hrange]

/-- Claim C10: a strictly negative configured `slope_threshold` selects the
auto-derived rolling-median threshold exactly as `slope_threshold = 0`
does, so the label series of the two calls are identical. -/
theorem negative_slope_threshold_same_as_zero (close : List ℚ) (cfg : RegimeConfig)
    (h : cfg.slope_threshold < 0) :
    classify_regimes close cfg =
      classify_regimes close { cfg with slope_threshold := 0 } := by
  have hthr : ∀ t, slopeThresholdAt close cfg t =
      slopeThresholdAt close { cfg with slope_threshold := 0 } t := by
    intro t
    unfold slopeThresholdAt
    rw [if_pos (le_of_lt h), if_pos (le_refl (0 : ℚ))]
  have hlab : ∀ t, labelAt close cfg t = labelAt close { cfg with slope_threshold := 0 } t := by
    intro t
    unfold labelAt rangeMaskAt trendMaskAt volatileMaskAt
    rw [hthr t]
    rfl
  unfold classify_regimes
  exact List.map_congr_left fun t _ => hlab t

/-! ### Concrete counterexamples and witnesses

The Batteries rational operations are `@[irreducible]`; they are made
semireducible locally so that closed statements about concrete price
series can be evaluated by `decide`.  Every window evaluated below has
variance `0`, where `Rat.sqrt` agrees with the real square root. -/

section WitnessEvaluation

attribute [local semireducible] Rat.mul Rat.add Rat.sub Rat.inv

/-- Claim C1 witness: a 2-bar series under the default configuration. -/
theorem warmup_short_series_all_uncertain_witness :
    classify_regimes [1, 2] defaultConfig = List.replicate 2 Label.UNCERTAIN :=
  warmup_short_series_all_uncertain [1, 2] defaultConfig (by decide)

/-- Claim C2 witness: length, alignment and label range on a 1-bar series. -/
theorem classify_length_and_alignment_witness :
    (classify_regimes [5] defaultConfig).length = 1 ∧
    (classify_regimes [5] defaultConfig)[0]? = some (labelAt [5] defaultConfig 0) ∧
    (Label.UNCERTAIN = Label.TREND ∨ Label.UNCERTAIN = Label.RANGE ∨
      Label.UNCERTAIN = Label.VOLATILE ∨ Label.UNCERTAIN = Label.UNCERTAIN) :=
  ⟨(classify_length_and_alignment [5] defaultConfig).1,
    (classify_length_and_alignment [5] defaultConfig).2.1 0 (by decide),
    (classify_length_and_alignment [5] defaultConfig).2.2 Label.UNCERTAIN (by decide)⟩

/-- Claim C4 counterexample: with lookback_vol = 2, lookback_trend = 1,
typical_vol_window = 2, fixed threshold 1/2, the series [1, 2, 4, 8, 16]
passes the length gate, and at t = 1 the rolling volatility and the
baseline are both undefined, yet the point is labeled TREND rather than
UNCERTAIN. -/
theorem undefined_baseline_labeled_trend :
    minBars ⟨2, 1, 2, 3 / 2, 1 / 2⟩ ≤ ([1, 2, 4, 8, 16] : List ℚ).length ∧
    volAt [1, 2, 4, 8, 16] ⟨2, 1, 2, 3 / 2, 1 / 2⟩ 1 = none ∧
    typicalVolAt [1, 2, 4, 8, 16] ⟨2, 1, 2, 3 / 2, 1 / 2⟩ 1 = none ∧
    labelAt [1, 2, 4, 8, 16] ⟨2, 1, 2, 3 / 2, 1 / 2⟩ 1 = Label.TREND := by
  decide

/-- Claim C4 witness: at t = 0 of the same series the slope is undefined
and the point is not flagged volatile, so it stays UNCERTAIN. -/
theorem undefined_slope_or_threshold_stays_uncertain_witness :
    volatileMaskAt [1, 2, 4, 8, 16] ⟨2, 1, 2, 3 / 2, 1 / 2⟩ 0 = false ∧
    labelAt [1, 2, 4, 8, 16] ⟨2, 1, 2, 3 / 2, 1 / 2⟩ 0 = Label.UNCERTAIN :=
  ⟨(undefined_slope_or_threshold_stays_uncertain [1, 2, 4, 8, 16]
        ⟨2, 1, 2, 3 / 2, 1 / 2⟩ 0).1 (Or.inl (by decide)),
    (undefined_slope_or_threshold_stays_uncertain [1, 2, 4, 8, 16]
        ⟨2, 1, 2, 3 / 2, 1 / 2⟩ 0).2 (by decide)
      ((undefined_slope_or_threshold_stays_uncertain [1, 2, 4, 8, 16]
          ⟨2, 1, 2, 3 / 2, 1 / 2⟩ 0).1 (Or.inl (by decide)))
      (Or.inl (by decide))⟩

/-- Claim C5 witness: for the geometric series [1, 2, 4, 8] with fixed
threshold 4, the slope at t = 3 is exactly 4 and the point is RANGE. -/
theorem slope_tie_classifies_range_witness :
    labelAt [1, 2, 4, 8] ⟨2, 1, 1, 3 / 2, 4⟩ 3 = Label.RANGE :=
  slope_tie_classifies_range [1, 2, 4, 8] ⟨2, 1, 1, 3 / 2, 4⟩ 3 4 4 (by decide) (by decide)
    (by decide) (by decide) (by decide)

/-- Claim C6 witness: at t = 3 of the same geometric series the volatility
and the baseline are both 0, so volatility equals baseline times the
multiplier exactly, and the point is not VOLATILE. -/
theorem volatility_boundary_not_volatile_witness :
    volatileMaskAt [1, 2, 4, 8] ⟨2, 1, 1, 3 / 2, 4⟩ 3 = false ∧
    labelAt [1, 2, 4, 8] ⟨2, 1, 1, 3 / 2, 4⟩ 3 ≠ Label.VOLATILE :=
  volatility_boundary_not_volatile [1, 2, 4, 8] ⟨2, 1, 1, 3 / 2, 4⟩ 3 0 0 (by decide)
    (by decide) (by decide)

/-- Claim C7 counterexample: a price series whose entries are all negative
is classified without any failure being signalled, producing ordinary
labels (two of which even enable trading downstream). -/
theorem nonpositive_prices_no_failure :
    classify_regimes [-1, -2, -4, -8] ⟨2, 1, 1, 3 / 2, 1⟩ =
      [Label.UNCERTAIN, Label.RANGE, Label.TREND, Label.TREND] := by
  decide

/-- Claim C7 witness: a short series of negative prices under a negative
`vol_mult_high` still yields the all-UNCERTAIN label series, not an
error. -/
theorem classify_total_on_all_inputs_witness :
    (classify_regimes [-1, -2] ⟨2, 1, 1, -1, 1⟩).length = 2 ∧
    classify_regimes [-1, -2] ⟨2, 1, 1, -1, 1⟩ = List.replicate 2 Label.UNCERTAIN :=
  ⟨(classify_total_on_all_inputs [-1, -2] ⟨2, 1, 1, -1, 1⟩).1,
    (classify_total_on_all_inputs [-1, -2] ⟨2, 1, 1, -1, 1⟩).2 (by decide)⟩

/-- Claim C8 witness: an arbitrary malformed label maps to the disabled
decision. -/
theorem decision_gate_fail_safe_witness :
    (decision_gate ("GARBAGE")).allow_trade = false ∧
    (decision_gate ("GARBAGE")).position_size = 0 :=
  decision_gate_fail_safe.2.2.2 ("GARBAGE") (by decide) (by decide)

/-- Claim C9 witness: a constant series of four bars at price 1, with every
intermediate defined at t = 3, classifies as RANGE there. -/
theorem constant_price_post_warmup_range_witness :
    0 < (1 : ℚ) ∧ minBars ⟨2, 1, 1, 3 / 2, 1⟩ ≤ 4 ∧
    definedAll (List.replicate 4 1) ⟨2, 1, 1, 3 / 2, 1⟩ 3 ∧
    labelAt (List.replicate 4 1) ⟨2, 1, 1, 3 / 2, 1⟩ 3 = Label.RANGE :=
  ⟨by decide, by decide, by decide,
    constant_price_post_warmup_range ⟨2, 1, 1, 3 / 2, 1⟩ 1 4 3 (by decide) (by decide)
      (by decide)⟩

/-- Claim C10 witness: slope_threshold = -1 labels exactly as
slope_threshold = 0. -/
theorem negative_slope_threshold_same_as_zero_witness :
    classify_regimes [1, 2, 4, 8] ⟨2, 1, 1, 3 / 2, -1⟩ =
      classify_regimes [1, 2, 4, 8]
        { (⟨2, 1, 1, 3 / 2, -1⟩ : RegimeConfig) with slope_threshold := 0 } :=
  negative_slope_threshold_same_as_zero [1, 2, 4, 8] ⟨2, 1, 1, 3 / 2, -1⟩ (by decide)

end WitnessEvaluation
